import Mathlib

/-!
Verification of the COXIRIS positioning-system serial client.

This file gives a shallow embedding of `src/src/main/serial.js`
(`SerialGCodePrinter`) and of the UI component `src/unnamed/part_000`,
and settles the frozen claims about the natural-language specification
against those definitions.

Modelling conventions for `serial.js`:
- The mutable fields of the `SerialGCodePrinter` instance become the
  fields of `PrinterState`.
- A call's promise is identified by a fresh natural number.  ECMAScript
  promises settle at most once (a second resolve/reject is a silent
  no-op); `settle` enforces exactly that: a settlement is recorded in
  `resolutions` only when the promise id has not been settled before.
- `setTimeout` arms a `Timer` carrying the data its callback closes
  over (the command text, the timeout duration, and the promise whose
  reject it holds); `clearTimeout` removes it from `activeTimers`; a
  timer expiry is the event `Ev.fire`.
- Each externally observable effect is logged in the state: `writes`
  (bytes handed to `port.write`), `rendererErrors`
  (`sendErrorToRenderer`), `observerNotifications` (invocations of the
  `errorCallbacks` registered through `onError`).
- The axis values interpolated by the JavaScript template literals
  (`` `X${position.x}` ``) are modelled by the already-rendered numeral
  strings; the stored speed is modelled as an `Int` rendered with
  `toString`.
-/

namespace SerialGCode

/-- JavaScript `String.prototype.startsWith`, computed on the character
list so that it reduces in the kernel. -/
def strStartsWith (s pre : String) : Bool :=
  pre.data.isPrefixOf s.data

/-- JavaScript `String.prototype.substring(n)`, computed on the
character list so that it reduces in the kernel. -/
def strDrop (s : String) (n : Nat) : String :=
  ⟨s.data.drop n⟩

/-- JavaScript `String.prototype.trim`, computed on the character list
so that it reduces in the kernel. -/
def jsTrim (s : String) : String :=
  ⟨((s.data.dropWhile Char.isWhitespace).reverse.dropWhile Char.isWhitespace).reverse⟩

/-- Settlement outcomes of a call's promise.  The first four are the
outcomes the code in `serial.js` actually produces.  `busy`,
`deviceError` and `disconnected` are the failure kinds named by the
specification (`Busy`, `DeviceReportedError`, `Disconnected`); they are
part of the type so that claims about them can be stated, and the
theorems below settle whether the code ever produces them.
`transportError` is likewise the spec's `TransportError`. -/
inductive Outcome where
  | success
  | notConnected
  | writeError
  | timeout (cmd : String) (duration : Nat)
  | busy
  | deviceError (msg : String)
  | transportError
  | disconnected
deriving DecidableEq, Repr

/-- A timer armed by `setTimeout` inside `sendCommand`: its handle
(`id`), and the data the callback closes over — the command text,
the timeout duration, and the promise id whose `resolve`/`reject`
the callback captures. -/
structure Timer where
  id : Nat
  cmd : String
  duration : Nat
  promiseId : Nat
deriving DecidableEq, Repr

/-- The mutable state of a `SerialGCodePrinter` instance, plus the
logs of its externally observable effects. -/
structure PrinterState where
  /-- `this.isConnected` -/
  isConnected : Bool
  /-- whether `this.port` is non-null -/
  hasPort : Bool
  /-- `this.currentSpeed` -/
  currentSpeed : Int
  /-- `this.currentCommand` -/
  currentCommand : Option String
  /-- `this.timeoutId` -/
  timeoutId : Option Nat
  /-- `this.moveCompleteCallbacks`: the promise ids whose `resolve`
  functions are currently registered, in push order -/
  moveCompleteCallbacks : List Nat
  /-- `this.errorCallbacks`: ids of externally registered observers -/
  errorCallbacks : List Nat
  /-- timers armed by `setTimeout` and not yet fired or cleared -/
  activeTimers : List Timer
  /-- fresh-promise counter -/
  nextPromiseId : Nat
  /-- fresh-timer-handle counter -/
  nextTimerId : Nat
  /-- promise settlements, in order: (promise id, outcome) -/
  resolutions : List (Nat × Outcome)
  /-- messages sent by `sendErrorToRenderer` -/
  rendererErrors : List String
  /-- messages delivered to the `errorCallbacks` observers -/
  observerNotifications : List (Nat × String)
  /-- data handed to `port.write`, in order -/
  writes : List String
deriving DecidableEq, Repr

/-- Settle promise `p` with outcome `o`.  ECMAScript promise semantics:
if `p` is already settled, this is a no-op. -/
def settle (s : PrinterState) (p : Nat) (o : Outcome) : PrinterState :=
  if s.resolutions.any (fun r => r.fst == p) then s
  else { s with resolutions := s.resolutions ++ [(p, o)] }

/-- `clearTimeout(this.timeoutId); this.timeoutId = null` guarded by
`if (this.timeoutId)`, as both `processResponse` branches do it. -/
def clearPendingTimer (s : PrinterState) : PrinterState :=
  match s.timeoutId with
  | none => s
  | some tid =>
      { s with activeTimers := s.activeTimers.filter (fun tm => tm.id != tid),
               timeoutId := none }

/-- The per-command classification in `sendCommand` (lines 245):
`command === 'M115' || command.startsWith('M114')` resolves immediately
without waiting for `ok`. -/
def isImmediate (cmd : String) : Bool :=
  decide (cmd = "M115") || strStartsWith cmd "M114"

/-- `sendCommand(command, timeout)` (serial.js lines 224-266), with the
`port.write` callback outcome supplied as `writeOk`.  Returns the new
state and the id of the call's promise.
- not connected / no port: throws `Not connected to printer` (the call
  fails with that error before anything is written);
- otherwise `this.currentCommand = command`, then `port.write`:
  - write error: log, clear `currentCommand`, notify renderer, reject;
  - write ok, immediate command: resolve at once;
  - write ok, other command: push `resolve` onto
    `moveCompleteCallbacks` and arm the timeout timer, storing its
    handle in `this.timeoutId`. -/
def sendCommandEv (s : PrinterState) (cmd : String) (timeout : Nat)
    (writeOk : Bool) : PrinterState × Nat :=
  let pid := s.nextPromiseId
  let s := { s with nextPromiseId := pid + 1 }
  if !(s.isConnected && s.hasPort) then
    let s := { s with rendererErrors := s.rendererErrors ++ ["Not connected to printer"] }
    (settle s pid .notConnected, pid)
  else
    let s := { s with currentCommand := some cmd }
    if !writeOk then
      let s := { s with currentCommand := none,
                        rendererErrors := s.rendererErrors ++ ["Failed to send command"] }
      (settle s pid .writeError, pid)
    else
      let s := { s with writes := s.writes ++ [cmd ++ "\n"] }
      if isImmediate cmd then (settle s pid .success, pid)
      else
        let tid := s.nextTimerId
        let s := { s with
          moveCompleteCallbacks := s.moveCompleteCallbacks ++ [pid],
          activeTimers := s.activeTimers ++ [⟨tid, cmd, timeout, pid⟩],
          nextTimerId := tid + 1,
          timeoutId := some tid }
        (s, pid)

/-- `processResponse(line)` (serial.js lines 172-216).  Two independent
`if`s, exactly as in the source:
- `line === 'ok'`: clear the timer if any, `currentCommand = null`,
  invoke every callback in `moveCompleteCallbacks` (each resolves its
  promise with success) and clear the list;
- `line.startsWith('Error:')`: message is `line.substring(6).trim()`,
  clear the timer if any, send the message to the renderer,
  `currentCommand = null`, invoke each registered `errorCallbacks`
  observer with the message (the list is not cleared).
Neither branch touches the pending call's `resolve`/`reject` beyond
the above: in particular the error branch never rejects the promise
registered in `moveCompleteCallbacks`. -/
def processResponse (s : PrinterState) (line : String) : PrinterState :=
  let s :=
    if line = "ok" then
      let s := clearPendingTimer s
      let s := { s with currentCommand := none }
      let s := s.moveCompleteCallbacks.foldl (fun st pid => settle st pid .success) s
      { s with moveCompleteCallbacks := [] }
    else s
  if strStartsWith line "Error:" then
    let msg := jsTrim (strDrop line 6)
    let s := clearPendingTimer s
    { s with rendererErrors := s.rendererErrors ++ [msg],
             currentCommand := none,
             observerNotifications :=
               s.observerNotifications ++ s.errorCallbacks.map (fun ob => (ob, msg)) }
  else s

/-- Expiry of the timer with handle `tid` (the `setTimeout` callback in
`sendCommand`, lines 252-261).  A cleared or already-fired timer does
nothing.  Otherwise the callback runs: only if `this.currentCommand`
still *equals the command text* the timer was armed for
(`this.currentCommand === command`), it removes its own `resolve` from
`moveCompleteCallbacks`, clears `currentCommand`, notifies the
renderer, and rejects with the timeout error carrying the command text
and the duration the timer was armed with.  The callback does not null
out `this.timeoutId`. -/
def timerFire (s : PrinterState) (tid : Nat) : PrinterState :=
  match s.activeTimers.find? (fun tm => tm.id == tid) with
  | none => s
  | some tm =>
      let s := { s with activeTimers := s.activeTimers.filter (fun t2 => t2.id != tid) }
      if s.currentCommand = some tm.cmd then
        let s := { s with
          moveCompleteCallbacks := s.moveCompleteCallbacks.filter (fun p => p != tm.promiseId),
          currentCommand := none,
          rendererErrors := s.rendererErrors ++
            ["Command \x22" ++ tm.cmd ++ "\x22 timed out after " ++
              toString tm.duration ++ "ms"] }
        settle s tm.promiseId (.timeout tm.cmd tm.duration)
      else s

/-- The `port.on('error', ...)` handler installed by `connect`
(serial.js lines 149-154): log, `this.isConnected = false`, notify the
renderer, and `reject(error)` — the reject of the *connect* promise
(promise id 0 below), which is a no-op when connect already resolved.
It touches nothing else: not `currentCommand`, not `timeoutId`, not
`moveCompleteCallbacks`, not the armed timers. -/
def transportErrorEv (s : PrinterState) (msg : String) : PrinterState :=
  let s := { s with isConnected := false,
                    rendererErrors := s.rendererErrors ++ ["Serial port error: " ++ msg] }
  settle s 0 .transportError

/-- `disconnect()` (serial.js lines 288-313), with the `port.close`
callback outcome supplied as `closeOk`.  Returns the new state and
whether the disconnect call itself succeeded.
- already not connected: resolve immediately, change nothing;
- otherwise clear the pending timer if any, then `port.close`:
  on success `isConnected = false`, `port = null`, resolve; on failure
  notify the renderer and reject.  `currentCommand` and
  `moveCompleteCallbacks` are not touched in either case. -/
def disconnectEv (s : PrinterState) (closeOk : Bool) : PrinterState × Bool :=
  if !s.isConnected then (s, true)
  else
    let s := clearPendingTimer s
    if closeOk then
      ({ s with isConnected := false, hasPort := false }, true)
    else
      ({ s with rendererErrors := s.rendererErrors ++ ["Disconnection error"] }, false)

/-- `onError(callback)` (serial.js lines 280-282): register an external
error observer. -/
def onErrorEv (s : PrinterState) (ob : Nat) : PrinterState :=
  { s with errorCallbacks := s.errorCallbacks ++ [ob] }

/-- The events that can act on a `SerialGCodePrinter` instance. -/
inductive Ev where
  /-- a `sendCommand(cmd, timeout)` call whose `port.write` callback
  reports `writeOk` -/
  | issue (cmd : String) (timeout : Nat) (writeOk : Bool)
  /-- the `ReadlineParser` `data` handler delivering one line; `connect`
  installs `line => processResponse(line.toString().trim())` -/
  | line (l : String)
  /-- expiry of the timer with handle `tid` -/
  | fire (tid : Nat)
  /-- the port's asynchronous `error` event -/
  | portError (msg : String)
  /-- a `disconnect()` call whose `port.close` callback reports `closeOk` -/
  | disc (closeOk : Bool)
  /-- an `onError(callback)` registration -/
  | regObserver (ob : Nat)
deriving DecidableEq, Repr

/-- One event step. -/
def step (s : PrinterState) : Ev → PrinterState
  | .issue cmd t w => (sendCommandEv s cmd t w).1
  | .line l => processResponse s (jsTrim l)
  | .fire tid => timerFire s tid
  | .portError m => transportErrorEv s m
  | .disc ok => (disconnectEv s ok).1
  | .regObserver ob => onErrorEv s ob

/-- Run a sequence of events. -/
def run (s : PrinterState) (evs : List Ev) : PrinterState :=
  evs.foldl step s

/-- The state right after a successful `connect` and handshake: port
open, connected, nothing pending, no timer armed.  Promise id 0 is the
connect promise, already resolved (so the `reject` captured by the
`error` handler is a no-op on it from now on). -/
def readyState : PrinterState where
  isConnected := true
  hasPort := true
  currentSpeed := 0
  currentCommand := none
  timeoutId := none
  moveCompleteCallbacks := []
  errorCallbacks := []
  activeTimers := []
  nextPromiseId := 1
  nextTimerId := 0
  resolutions := [(0, .success)]
  rendererErrors := []
  observerNotifications := []
  writes := []

/-- How many times promise `p` has been settled.  By `settle` this is
0 or 1; the claims about "invoked exactly once / zero times" are stated
with it. -/
def settledCount (s : PrinterState) (p : Nat) : Nat :=
  (s.resolutions.filter (fun r => r.fst == p)).length

/-- Promise `p` settled with outcome `o`. -/
def settledWith (s : PrinterState) (p : Nat) (o : Outcome) : Prop :=
  (p, o) ∈ s.resolutions

instance (s : PrinterState) (p : Nat) (o : Outcome) :
    Decidable (settledWith s p o) := by
  unfold settledWith; infer_instance

/-- The move-command builder shared verbatim by `absoluteMove`
(serial.js lines 369-384) and `deltaMove` (lines 399-409): start from
`G0`/`G1`, append ` X...`/` Y...`/` Z...` for each axis whose value is
present, then append ` F...` when the stored speed is positive.  Axis
values are the numerals the template literal interpolation renders. -/
def buildMoveCommand (gcode : String) (x y z : Option String) (speed : Int) : String :=
  let c := gcode
  let c := match x with | some v => c ++ " X" ++ v | none => c
  let c := match y with | some v => c ++ " Y" ++ v | none => c
  let c := match z with | some v => c ++ " Z" ++ v | none => c
  if speed > 0 then c ++ " F" ++ toString speed else c

/-- The characters the device's numeric grammar allows in an axis
value (optional sign, digits, optional single decimal point): what the
JavaScript template interpolation of a finite number renders. -/
def numeralChars (v : String) : Prop :=
  ∀ c ∈ v.data, c.isDigit = true ∨ c = '.' ∨ c = '-'

/-- `numeralChars` lifted to an optional axis value. -/
def numeralCharsOpt : Option String → Prop
  | none => True
  | some v => numeralChars v

/-- The characters `toString` renders an integer with. -/
def signedDigits (v : String) : Prop :=
  ∀ c ∈ v.data, c.isDigit = true ∨ c = '-'

instance (v : String) : Decidable (numeralChars v) := by
  unfold numeralChars; infer_instance

instance (o : Option String) : Decidable (numeralCharsOpt o) := by
  cases o <;> unfold numeralCharsOpt <;> infer_instance

instance (v : String) : Decidable (signedDigits v) := by
  unfold signedDigits; infer_instance

/-- `absoluteMove(position, rapid)` at the event level: build the
command from the state's stored speed and issue it through
`sendCommand` with the default 30000 ms timeout. -/
def absoluteMoveEv (s : PrinterState) (x y z : Option String) (rapid : Bool)
    (writeOk : Bool) : PrinterState × Nat :=
  sendCommandEv s
    (buildMoveCommand (if rapid then "G0" else "G1") x y z s.currentSpeed)
    30000 writeOk

/-- The outcome of one awaited `sendCommand` call as the sequencer
sees it: fulfilled, or rejected with an error (carried as a string). -/
inductive CmdResult where
  | ok
  | err (e : String)
deriving DecidableEq, Repr

/-- The result of one `deltaMove` run at the sequencer level. -/
structure DeltaRun where
  /-- the command texts handed to `sendCommand`, in order -/
  issued : List String
  /-- the outcome the caller of `deltaMove` observes -/
  result : CmdResult
  /-- secondary restore failures, only logged (`log.error(...)`) -/
  loggedRestoreFailures : List String
deriving DecidableEq, Repr

/-- `deltaMove(distance, rapid)` (serial.js lines 392-424), with the
outcome of the i-th `sendCommand` of this run supplied by the oracle
`r`.  Mirrors the source's control flow:
- `await sendCommand('G91')`; on failure the `catch` block runs:
  it *still* attempts `await sendCommand('G90')`, only logging that
  restore's failure, then rethrows the original error;
- then the move command is built and `await sendCommand(move)`; on
  failure the same `catch` block attempts `G90` and rethrows;
- on success the function ends with `return this.sendCommand('G90')`
  *without* `await`: the returned promise is adopted after the `try`
  block is exited, so a failure of this final restore bypasses the
  `catch` block and surfaces directly to the caller. -/
def deltaMoveRun (x y z : Option String) (rapid : Bool) (speed : Int)
    (r : Nat → CmdResult) : DeltaRun :=
  let mv := buildMoveCommand (if rapid then "G0" else "G1") x y z speed
  match r 0 with
  | .err e =>
      match r 1 with
      | .err e2 => ⟨["G91", "G90"], .err e, [e2]⟩
      | .ok => ⟨["G91", "G90"], .err e, []⟩
  | .ok =>
      match r 1 with
      | .err e =>
          match r 2 with
          | .err e2 => ⟨["G91", mv, "G90"], .err e, [e2]⟩
          | .ok => ⟨["G91", mv, "G90"], .err e, []⟩
      | .ok => ⟨["G91", mv, "G90"], r 2, []⟩

/-- The state after issuing one non-immediate command `cmd` with
timeout `t` from `readyState` (write successful): the command has been
written, promise 1 awaits in `moveCompleteCallbacks`, and timer 0 is
armed for it. -/
def afterIssue (cmd : String) (t : Nat) : PrinterState where
  isConnected := true
  hasPort := true
  currentSpeed := 0
  currentCommand := some cmd
  timeoutId := some 0
  moveCompleteCallbacks := [1]
  errorCallbacks := []
  activeTimers := [⟨0, cmd, t, 1⟩]
  nextPromiseId := 2
  nextTimerId := 1
  resolutions := [(0, .success)]
  rendererErrors := []
  observerNotifications := []
  writes := [cmd ++ "\n"]

end SerialGCode

namespace PositioningUI

/-- The state of the UI component `src/unnamed/part_000`: the cached
position, the speed field, the connection flag, and the log lines
(modelled by their i18n keys). -/
structure UiState where
  position : ℚ × ℚ × ℚ
  speed : ℚ
  isConnected : Bool
  selectedPort : String
  logs : List String
deriving DecidableEq, Repr

/-- `handleConnect` (part_000 lines 27-35): requires a selected port;
sets the connected flag and logs.  No device I/O occurs. -/
def handleConnect (s : UiState) : UiState :=
  if s.selectedPort = "" then
    { s with logs := s.logs ++ ["error.no_port_selected"] }
  else
    { s with isConnected := true, logs := s.logs ++ ["log.connected_to_port"] }

/-- `handleDisconnect` (part_000 lines 37-40). -/
def handleDisconnect (s : UiState) : UiState :=
  { s with isConnected := false, logs := s.logs ++ ["log.disconnected"] }

/-- `handleSetHome` (part_000 lines 42-45): the cached position is
reset to the origin. -/
def handleSetHome (s : UiState) : UiState :=
  { s with position := (0, 0, 0), logs := s.logs ++ ["log.position_set_as_home"] }

/-- `handleGoHome` (part_000 lines 47-50): the cached position is
reset to the origin. -/
def handleGoHome (s : UiState) : UiState :=
  { s with position := (0, 0, 0), logs := s.logs ++ ["log.moving_to_home"] }

/-- `handleSetSpeed` (part_000 lines 52-55): only logs; the speed field
itself is mutated by the input binding, modelled as `setSpeedInput`. -/
def handleSetSpeed (s : UiState) : UiState :=
  { s with logs := s.logs ++ ["log.speed_set"] }

/-- The `bind:value={speed}` input binding. -/
def setSpeedInput (s : UiState) (v : ℚ) : UiState :=
  { s with speed := v }

/-- `handleAbsoluteMove` (part_000 lines 57-61): the cached position is
set to the commanded target the moment the handler runs.  The component
performs no device I/O and receives no inbound lines, so the update is
not conditioned on any completion. -/
def handleAbsoluteMove (s : UiState) (target : ℚ × ℚ × ℚ) : UiState :=
  { s with position := target, logs := s.logs ++ ["log.absolute_move"] }

/-- `handleDeltaMove` (part_000 lines 63-81): the cached position is
incremented by the delta the moment the handler runs. -/
def handleDeltaMove (s : UiState) (d : ℚ × ℚ × ℚ) : UiState :=
  { s with position := (s.position.1 + d.1, s.position.2.1 + d.2.1, s.position.2.2 + d.2.2),
           logs := s.logs ++ ["log.delta_move"] }

/-- A component state as after mounting and connecting: origin
position, default speed 1000, connected. -/
def uiConnectedState : UiState where
  position := (0, 0, 0)
  speed := 1000
  isConnected := true
  selectedPort := "COM1"
  logs := []

end PositioningUI

/-! ## Helper lemmas: single symbolic steps from the ready state -/

namespace SerialGCode

/-- Issuing a non-immediate command from the ready state (write
successful) yields `afterIssue`. -/
theorem step_issue_ready (cmd : String) (t : Nat) (h : isImmediate cmd = false) :
    step readyState (.issue cmd t true) = afterIssue cmd t := by
  simp [step, sendCommandEv, readyState, afterIssue, h]

/-- Issuing from the ready state with error observers registered. -/
theorem step_issue_ready_obs (obs : List Nat) (cmd : String) (t : Nat)
    (h : isImmediate cmd = false) :
    step { readyState with errorCallbacks := obs } (.issue cmd t true) =
      { afterIssue cmd t with errorCallbacks := obs } := by
  simp [step, sendCommandEv, readyState, afterIssue, h]

theorem jsTrim_ok : jsTrim "ok" = "ok" := by decide

theorem jsTrim_errline : jsTrim "Error: boom" = "Error: boom" := by decide

/-- An `ok` line with one command pending: timer cleared, slot cleared,
the pending promise resolved with success. -/
theorem afterIssue_ok (cmd : String) (t : Nat) :
    step (afterIssue cmd t) (.line "ok") =
      { afterIssue cmd t with
          currentCommand := none, timeoutId := none, activeTimers := [],
          moveCompleteCallbacks := [],
          resolutions := [(0, .success), (1, .success)] } := by
  simp [step, jsTrim_ok, processResponse, clearPendingTimer, settle, afterIssue, strStartsWith]

/-- The armed timer firing with its command still pending: the guard
passes, the slot is cleared, the promise is rejected with the timeout. -/
theorem afterIssue_fire (cmd : String) (t : Nat) :
    step (afterIssue cmd t) (.fire 0) =
      { afterIssue cmd t with
          currentCommand := none, activeTimers := [],
          moveCompleteCallbacks := [],
          rendererErrors := ["Command \x22" ++ cmd ++ "\x22 timed out after " ++
            toString t ++ "ms"],
          resolutions := [(0, .success), (1, .timeout cmd t)] } := by
  simp [step, timerFire, afterIssue, settle]

/-- An error line with one command pending: the timer is cancelled and
the slot cleared, the message reaches the renderer — and no promise is
settled. -/
theorem afterIssue_errline (cmd : String) (t : Nat) :
    step (afterIssue cmd t) (.line "Error: boom") =
      { afterIssue cmd t with
          currentCommand := none, timeoutId := none, activeTimers := [],
          rendererErrors := ["boom"] } := by
  simp [step, jsTrim_errline, processResponse, clearPendingTimer, afterIssue,
    strStartsWith, strDrop, jsTrim]

/-- An error line with one command pending and error observers
registered: as `afterIssue_errline`, plus each observer is notified
with the extracted message. -/
theorem afterIssue_errline_obs (obs : List Nat) (cmd : String) (t : Nat) :
    step { afterIssue cmd t with errorCallbacks := obs } (.line "Error: boom") =
      { afterIssue cmd t with
          errorCallbacks := obs,
          currentCommand := none, timeoutId := none, activeTimers := [],
          rendererErrors := ["boom"],
          observerNotifications := obs.map (fun ob => (ob, "boom")) } := by
  simp [step, jsTrim_errline, processResponse, clearPendingTimer, afterIssue,
    strStartsWith, strDrop, jsTrim]

/-- The port's `error` event with one command pending: only the
connected flag and the renderer log change; the already-settled connect
promise ignores the reject. -/
theorem afterIssue_portError (cmd : String) (t : Nat) (msg : String) :
    step (afterIssue cmd t) (.portError msg) =
      { afterIssue cmd t with
          isConnected := false,
          rendererErrors := ["Serial port error: " ++ msg] } := by
  simp [step, transportErrorEv, settle, afterIssue]

/-- `disconnect()` with one command pending (close succeeds): timer
cleared, port closed — `currentCommand` and the callback list survive
and no promise is settled. -/
theorem afterIssue_disc (cmd : String) (t : Nat) :
    step (afterIssue cmd t) (.disc true) =
      { afterIssue cmd t with
          timeoutId := none, activeTimers := [],
          isConnected := false, hasPort := false } := by
  simp [step, disconnectEv, clearPendingTimer, afterIssue]

/-- A second `sendCommand` while the first is pending: no check
rejects it — it is written, the slot text is overwritten, its resolve
is pushed behind the first one, and a second timer is armed. -/
theorem afterIssue_issue2 (c1 : String) (t1 : Nat) (c2 : String) (t2 : Nat)
    (h2 : isImmediate c2 = false) :
    step (afterIssue c1 t1) (.issue c2 t2 true) =
      { afterIssue c1 t1 with
          currentCommand := some c2,
          moveCompleteCallbacks := [1, 2],
          activeTimers := [⟨0, c1, t1, 1⟩, ⟨1, c2, t2, 2⟩],
          nextPromiseId := 3, nextTimerId := 2,
          timeoutId := some 1,
          writes := [c1 ++ "\n", c2 ++ "\n"] } := by
  simp [step, sendCommandEv, afterIssue, h2]

end SerialGCode

/-! ## Claims C1, C2, C3: the command correlator -/

namespace SerialGCode

/-- C1 counterexample.  The claim says the pending command's completion
continuation is invoked exactly once across the {success, error,
timeout} outcomes — never zero times.  Concretely: issue `G1 X10` while
connected and not busy, then deliver the device-error line
`Error: hotend`.  The pending promise is settled zero times, the slot
is cleared and the timeout timer is cancelled, so the timeout can never
fire either: the caller is left unresolved. -/
theorem C1_counterexample :
    settledCount (run readyState [.issue "G1 X10" 100 true, .line "Error: hotend"]) 1 = 0
    ∧ (run readyState [.issue "G1 X10" 100 true, .line "Error: hotend"]).activeTimers = []
    ∧ (run readyState [.issue "G1 X10" 100 true, .line "Error: hotend"]).timeoutId = none
    ∧ (run readyState [.issue "G1 X10" 100 true, .line "Error: hotend"]).currentCommand = none := by
  decide

/-- C1 amended: for every command issued while connected and not busy,
the continuation is invoked exactly once when the resolution comes from
the completion line or from the timeout — and a late timer expiry or a
late completion line cannot invoke it a second time — but a
device-reported error line invokes the continuation zero times: it
cancels the timer and clears the slot, leaving the caller unresolved. -/
theorem C1_resolution_exactly_once_amended (cmd : String) (t : Nat)
    (h : isImmediate cmd = false) :
    (settledCount (run readyState [.issue cmd t true, .line "ok"]) 1 = 1
      ∧ settledWith (run readyState [.issue cmd t true, .line "ok"]) 1 .success)
    ∧ settledCount (run readyState [.issue cmd t true, .line "ok", .fire 0]) 1 = 1
    ∧ (settledCount (run readyState [.issue cmd t true, .fire 0]) 1 = 1
      ∧ settledWith (run readyState [.issue cmd t true, .fire 0]) 1 (.timeout cmd t))
    ∧ settledCount (run readyState [.issue cmd t true, .fire 0, .line "ok"]) 1 = 1
    ∧ (settledCount (run readyState [.issue cmd t true, .line "Error: boom"]) 1 = 0
      ∧ (run readyState [.issue cmd t true, .line "Error: boom"]).activeTimers = []) := by
  have e1 : run readyState [.issue cmd t true, .line "ok"] =
      step (step readyState (.issue cmd t true)) (.line "ok") := rfl
  have e2 : run readyState [.issue cmd t true, .line "ok", .fire 0] =
      step (step (step readyState (.issue cmd t true)) (.line "ok")) (.fire 0) := rfl
  have e3 : run readyState [.issue cmd t true, .fire 0] =
      step (step readyState (.issue cmd t true)) (.fire 0) := rfl
  have e4 : run readyState [.issue cmd t true, .fire 0, .line "ok"] =
      step (step (step readyState (.issue cmd t true)) (.fire 0)) (.line "ok") := rfl
  have e5 : run readyState [.issue cmd t true, .line "Error: boom"] =
      step (step readyState (.issue cmd t true)) (.line "Error: boom") := rfl
  rw [e1, e2, e3, e4, e5, step_issue_ready cmd t h, afterIssue_ok, afterIssue_fire,
    afterIssue_errline]
  refine ⟨⟨?_, ?_⟩, ?_, ⟨?_, ?_⟩, ?_, ?_, ?_⟩ <;>
    simp [step, timerFire, processResponse, clearPendingTimer, settle, settledCount,
      settledWith, afterIssue, jsTrim_ok, strStartsWith]

/-- C1 witness. -/
theorem C1_resolution_exactly_once_amended_witness :
    isImmediate "G1 X5" = false
    ∧ ((settledCount (run readyState [.issue "G1 X5" 100 true, .line "ok"]) 1 = 1
      ∧ settledWith (run readyState [.issue "G1 X5" 100 true, .line "ok"]) 1 .success)
    ∧ settledCount (run readyState [.issue "G1 X5" 100 true, .line "ok", .fire 0]) 1 = 1
    ∧ (settledCount (run readyState [.issue "G1 X5" 100 true, .fire 0]) 1 = 1
      ∧ settledWith (run readyState [.issue "G1 X5" 100 true, .fire 0]) 1 (.timeout "G1 X5" 100))
    ∧ settledCount (run readyState [.issue "G1 X5" 100 true, .fire 0, .line "ok"]) 1 = 1
    ∧ (settledCount (run readyState [.issue "G1 X5" 100 true, .line "Error: boom"]) 1 = 0
      ∧ (run readyState [.issue "G1 X5" 100 true, .line "Error: boom"]).activeTimers = [])) :=
  ⟨by decide, C1_resolution_exactly_once_amended "G1 X5" 100 (by decide)⟩

/-- C2 counterexample.  The claim says a second command issued while
one is pending fails immediately with `Busy` and is not written to the
transport.  Concretely: issue `G1 X10`, then `G1 X20` while the first
is pending.  The second command *is* written, and its promise is not
settled at all — in particular not with a `Busy` failure. -/
theorem C2_counterexample :
    (run readyState [.issue "G1 X10" 50 true, .issue "G1 X20" 60 true]).writes
        = ["G1 X10\n", "G1 X20\n"]
    ∧ settledCount (run readyState [.issue "G1 X10" 50 true, .issue "G1 X20" 60 true]) 2 = 0
    ∧ ¬ settledWith (run readyState [.issue "G1 X10" 50 true, .issue "G1 X20" 60 true]) 2 .busy := by
  decide

/-- C2 amended: issuing a second command while one is pending does not
fail with `Busy`: the second command is written to the transport, the
pending-command text is overwritten with the second command's text, the
second continuation is registered behind the first, and a single
subsequent completion line resolves both with success. -/
theorem C2_no_busy_check (c1 c2 : String) (t1 t2 : Nat)
    (h1 : isImmediate c1 = false) (h2 : isImmediate c2 = false) :
    (run readyState [.issue c1 t1 true, .issue c2 t2 true]).writes = [c1 ++ "\n", c2 ++ "\n"]
    ∧ (run readyState [.issue c1 t1 true, .issue c2 t2 true]).currentCommand = some c2
    ∧ (run readyState [.issue c1 t1 true, .issue c2 t2 true]).moveCompleteCallbacks = [1, 2]
    ∧ (∀ o, ¬ settledWith (run readyState [.issue c1 t1 true, .issue c2 t2 true]) 2 o)
    ∧ settledWith (run readyState [.issue c1 t1 true, .issue c2 t2 true, .line "ok"]) 1 .success
    ∧ settledWith (run readyState [.issue c1 t1 true, .issue c2 t2 true, .line "ok"]) 2 .success := by
  have e1 : run readyState [.issue c1 t1 true, .issue c2 t2 true] =
      step (step readyState (.issue c1 t1 true)) (.issue c2 t2 true) := rfl
  have e2 : run readyState [.issue c1 t1 true, .issue c2 t2 true, .line "ok"] =
      step (step (step readyState (.issue c1 t1 true)) (.issue c2 t2 true)) (.line "ok") := rfl
  rw [e1, e2, step_issue_ready c1 t1 h1, afterIssue_issue2 c1 t1 c2 t2 h2]
  refine ⟨?_, ?_, ?_, ?_, ?_, ?_⟩ <;>
    simp [step, processResponse, clearPendingTimer, settle, settledCount, settledWith,
      afterIssue, jsTrim_ok, strStartsWith]

/-- C2 witness. -/
theorem C2_no_busy_check_witness :
    isImmediate "G1 X10" = false ∧ isImmediate "G1 X20" = false
    ∧ ((run readyState [.issue "G1 X10" 50 true, .issue "G1 X20" 60 true]).writes
          = ["G1 X10\n", "G1 X20\n"]
    ∧ (run readyState [.issue "G1 X10" 50 true, .issue "G1 X20" 60 true]).currentCommand
          = some "G1 X20"
    ∧ (run readyState [.issue "G1 X10" 50 true, .issue "G1 X20" 60 true]).moveCompleteCallbacks
          = [1, 2]
    ∧ (∀ o, ¬ settledWith (run readyState [.issue "G1 X10" 50 true, .issue "G1 X20" 60 true]) 2 o)
    ∧ settledWith (run readyState
        [.issue "G1 X10" 50 true, .issue "G1 X20" 60 true, .line "ok"]) 1 .success
    ∧ settledWith (run readyState
        [.issue "G1 X10" 50 true, .issue "G1 X20" 60 true, .line "ok"]) 2 .success) :=
  ⟨by decide, by decide, C2_no_busy_check "G1 X10" "G1 X20" 50 60 (by decide) (by decide)⟩

end SerialGCode

namespace SerialGCode

/-- The message extraction in the error branch of `processResponse`:
for any line of the form `Error:` followed by `rest`, the code's
`line.substring(6).trim()` yields exactly `rest` trimmed. -/
theorem errorLine_extraction (rest : String) :
    jsTrim (strDrop ("Error:" ++ rest) 6) = jsTrim rest := by
  show jsTrim ⟨("Error:" ++ rest).data.drop 6⟩ = jsTrim rest
  rw [String.data_append]
  have h6 : ("Error:".data).length = 6 := rfl
  rw [← h6, List.drop_left]

/-- C3 counterexample.  The claim says that on an error line arriving
with a command pending, the correlator resolves that command's
continuation with a `DeviceReportedError(message)` failure.  Concretely:
register one external error observer, issue `G1 X10`, then deliver
`Error:  hot end  `.  The message `hot end` is correctly extracted,
the timer is cancelled and the slot cleared — but the pending promise
is settled zero times: only the renderer and the external observer
receive the message, the awaiting caller does not. -/
theorem C3_counterexample :
    (run readyState [.regObserver 7, .issue "G1 X10" 50 true, .line "Error:  hot end  "]).rendererErrors
        = ["hot end"]
    ∧ (run readyState [.regObserver 7, .issue "G1 X10" 50 true, .line "Error:  hot end  "]).observerNotifications
        = [(7, "hot end")]
    ∧ (run readyState [.regObserver 7, .issue "G1 X10" 50 true, .line "Error:  hot end  "]).timeoutId = none
    ∧ (run readyState [.regObserver 7, .issue "G1 X10" 50 true, .line "Error:  hot end  "]).activeTimers = []
    ∧ (run readyState [.regObserver 7, .issue "G1 X10" 50 true, .line "Error:  hot end  "]).currentCommand = none
    ∧ settledCount (run readyState [.regObserver 7, .issue "G1 X10" 50 true, .line "Error:  hot end  "]) 1 = 0
    ∧ ¬ settledWith (run readyState [.regObserver 7, .issue "G1 X10" 50 true, .line "Error:  hot end  "]) 1
        (.deviceError "hot end") := by
  decide

/-- C3 amended: on an inbound `Error:`-prefixed line arriving while a
command is pending, the correlator extracts the message (the text after
the prefix, trimmed), cancels the timeout timer and clears the pending
slot — but it does not resolve the pending continuation: the message is
forwarded to the renderer and to the externally registered error
observers, and the awaiting caller is left unresolved. -/
theorem C3_error_line_behavior (cmd : String) (t : Nat)
    (h : isImmediate cmd = false) :
    (∀ rest : String, jsTrim (strDrop ("Error:" ++ rest) 6) = jsTrim rest)
    ∧ (run { readyState with errorCallbacks := [7] }
        [.issue cmd t true, .line "Error: boom"]).timeoutId = none
    ∧ (run { readyState with errorCallbacks := [7] }
        [.issue cmd t true, .line "Error: boom"]).activeTimers = []
    ∧ (run { readyState with errorCallbacks := [7] }
        [.issue cmd t true, .line "Error: boom"]).currentCommand = none
    ∧ (run { readyState with errorCallbacks := [7] }
        [.issue cmd t true, .line "Error: boom"]).rendererErrors = ["boom"]
    ∧ (run { readyState with errorCallbacks := [7] }
        [.issue cmd t true, .line "Error: boom"]).observerNotifications = [(7, "boom")]
    ∧ settledCount (run { readyState with errorCallbacks := [7] }
        [.issue cmd t true, .line "Error: boom"]) 1 = 0 := by
  have e1 : run { readyState with errorCallbacks := [7] }
        [.issue cmd t true, .line "Error: boom"] =
      step (step { readyState with errorCallbacks := [7] } (.issue cmd t true))
        (.line "Error: boom") := rfl
  rw [e1, step_issue_ready_obs [7] cmd t h, afterIssue_errline_obs [7] cmd t]
  exact ⟨errorLine_extraction, by simp [afterIssue], by simp [afterIssue], by simp [afterIssue],
    by simp [afterIssue], by simp [afterIssue], by simp [settledCount, afterIssue]⟩

/-- C3 witness. -/
theorem C3_error_line_behavior_witness :
    isImmediate "G1 X5" = false
    ∧ ((∀ rest : String, jsTrim (strDrop ("Error:" ++ rest) 6) = jsTrim rest)
    ∧ (run { readyState with errorCallbacks := [7] }
        [.issue "G1 X5" 100 true, .line "Error: boom"]).timeoutId = none
    ∧ (run { readyState with errorCallbacks := [7] }
        [.issue "G1 X5" 100 true, .line "Error: boom"]).activeTimers = []
    ∧ (run { readyState with errorCallbacks := [7] }
        [.issue "G1 X5" 100 true, .line "Error: boom"]).currentCommand = none
    ∧ (run { readyState with errorCallbacks := [7] }
        [.issue "G1 X5" 100 true, .line "Error: boom"]).rendererErrors = ["boom"]
    ∧ (run { readyState with errorCallbacks := [7] }
        [.issue "G1 X5" 100 true, .line "Error: boom"]).observerNotifications = [(7, "boom")]
    ∧ settledCount (run { readyState with errorCallbacks := [7] }
        [.issue "G1 X5" 100 true, .line "Error: boom"]) 1 = 0) :=
  ⟨by decide, C3_error_line_behavior "G1 X5" 100 (by decide)⟩

end SerialGCode

/-! ## Claims C4, C5: the move sequencer (`deltaMove`) -/

namespace SerialGCode

/-- C4: if the motion command of a relative move fails after relative
mode was successfully entered, the sequencer still issues the
restore-absolute-mode command `G90` before propagating the original
failure — the run issues exactly `G91`, the move command, `G90`, in
that order, and the caller sees the original failure; a failure of the
restore attempt itself is only logged and never replaces the original
failure. -/
theorem C4_compensation_on_move_failure (x y z : Option String) (rapid : Bool)
    (speed : Int) (r : Nat → CmdResult) (e : String)
    (h0 : r 0 = .ok) (h1 : r 1 = .err e) :
    (deltaMoveRun x y z rapid speed r).issued
        = ["G91", buildMoveCommand (if rapid then "G0" else "G1") x y z speed, "G90"]
    ∧ (deltaMoveRun x y z rapid speed r).result = .err e
    ∧ (r 2 = .ok → (deltaMoveRun x y z rapid speed r).loggedRestoreFailures = [])
    ∧ (∀ e2, r 2 = .err e2 →
        (deltaMoveRun x y z rapid speed r).loggedRestoreFailures = [e2]) := by
  unfold deltaMoveRun
  rw [h0, h1]
  cases h2 : r 2 <;> simp [h2]

/-- C4 witness. -/
theorem C4_compensation_on_move_failure_witness :
    (fun n => match n with
      | 0 => CmdResult.ok | 1 => CmdResult.err "move failed"
      | _ => CmdResult.err "restore failed") 0 = CmdResult.ok
    ∧ (fun n => match n with
      | 0 => CmdResult.ok | 1 => CmdResult.err "move failed"
      | _ => CmdResult.err "restore failed") 1 = CmdResult.err "move failed"
    ∧ ((deltaMoveRun (some "5") none none false 0 (fun n => match n with
      | 0 => CmdResult.ok | 1 => CmdResult.err "move failed"
      | _ => CmdResult.err "restore failed")).issued
        = ["G91", buildMoveCommand (if false then "G0" else "G1") (some "5") none none 0, "G90"]
    ∧ (deltaMoveRun (some "5") none none false 0 (fun n => match n with
      | 0 => CmdResult.ok | 1 => CmdResult.err "move failed"
      | _ => CmdResult.err "restore failed")).result = .err "move failed"
    ∧ ((fun n => match n with
      | 0 => CmdResult.ok | 1 => CmdResult.err "move failed"
      | _ => CmdResult.err "restore failed") 2 = CmdResult.ok →
        (deltaMoveRun (some "5") none none false 0 (fun n => match n with
      | 0 => CmdResult.ok | 1 => CmdResult.err "move failed"
      | _ => CmdResult.err "restore failed")).loggedRestoreFailures = [])
    ∧ (∀ e2, (fun n => match n with
      | 0 => CmdResult.ok | 1 => CmdResult.err "move failed"
      | _ => CmdResult.err "restore failed") 2 = CmdResult.err e2 →
        (deltaMoveRun (some "5") none none false 0 (fun n => match n with
      | 0 => CmdResult.ok | 1 => CmdResult.err "move failed"
      | _ => CmdResult.err "restore failed")).loggedRestoreFailures = [e2])) :=
  ⟨rfl, rfl, C4_compensation_on_move_failure (some "5") none none false 0 _ "move failed" rfl rfl⟩

/-- C5 counterexample.  The claim says that when entering relative mode
fails, the move step *and* the restore step are both skipped entirely.
Concretely: with `G91` failing (and the subsequent restore also
failing), the run still issues `G90` — the restore step is attempted,
it is not skipped. -/
theorem C5_counterexample :
    deltaMoveRun (some "5") none none false 0
        (fun n => if n = 0 then .err "enter failed" else .err "restore failed")
      = ⟨["G91", "G90"], .err "enter failed", ["restore failed"]⟩
    ∧ "G90" ∈ (deltaMoveRun (some "5") none none false 0
        (fun n => if n = 0 then .err "enter failed" else .err "restore failed")).issued := by
  decide

/-- C5 amended: if entering relative mode fails, the move step is
skipped (the run issues exactly `G91` then `G90`), but the
restore-absolute-mode command is still attempted by the catch block —
its own failure being only logged — and the original
enter-relative-mode failure propagates to the caller. -/
theorem C5_enter_failure_still_restores (x y z : Option String) (rapid : Bool)
    (speed : Int) (r : Nat → CmdResult) (e : String)
    (h0 : r 0 = .err e) :
    (deltaMoveRun x y z rapid speed r).issued = ["G91", "G90"]
    ∧ (deltaMoveRun x y z rapid speed r).result = .err e
    ∧ (r 1 = .ok → (deltaMoveRun x y z rapid speed r).loggedRestoreFailures = [])
    ∧ (∀ e2, r 1 = .err e2 →
        (deltaMoveRun x y z rapid speed r).loggedRestoreFailures = [e2]) := by
  unfold deltaMoveRun
  rw [h0]
  cases h1 : r 1 <;> simp [h1]

/-- C5 witness. -/
theorem C5_enter_failure_still_restores_witness :
    (fun n => if n = 0 then CmdResult.err "enter failed" else CmdResult.ok) 0
        = CmdResult.err "enter failed"
    ∧ ((deltaMoveRun (some "5") none none false 0
        (fun n => if n = 0 then CmdResult.err "enter failed" else CmdResult.ok)).issued
        = ["G91", "G90"]
    ∧ (deltaMoveRun (some "5") none none false 0
        (fun n => if n = 0 then CmdResult.err "enter failed" else CmdResult.ok)).result
        = .err "enter failed"
    ∧ ((fun n => if n = 0 then CmdResult.err "enter failed" else CmdResult.ok) 1 = CmdResult.ok →
        (deltaMoveRun (some "5") none none false 0
          (fun n => if n = 0 then CmdResult.err "enter failed" else CmdResult.ok)).loggedRestoreFailures = [])
    ∧ (∀ e2, (fun n => if n = 0 then CmdResult.err "enter failed" else CmdResult.ok) 1 = CmdResult.err e2 →
        (deltaMoveRun (some "5") none none false 0
          (fun n => if n = 0 then CmdResult.err "enter failed" else CmdResult.ok)).loggedRestoreFailures = [e2])) :=
  ⟨rfl, C5_enter_failure_still_restores (some "5") none none false 0 _ "enter failed" rfl⟩

end SerialGCode

/-! ## Claims C6, C7: transport errors and disconnect -/

namespace SerialGCode

/-- C6 counterexample.  The claim says a transport error event resolves
any pending command with a `TransportError` failure rather than leaving
it to time out.  Concretely: issue `G1 X10`, then fire the port's
`error` event.  The connection drops, but the pending promise is
settled zero times — in particular not with `TransportError` — and its
timeout timer is still armed, so the command is left to time out. -/
theorem C6_counterexample :
    (run readyState [.issue "G1 X10" 50 true, .portError "unplugged"]).isConnected = false
    ∧ settledCount (run readyState [.issue "G1 X10" 50 true, .portError "unplugged"]) 1 = 0
    ∧ ¬ settledWith (run readyState [.issue "G1 X10" 50 true, .portError "unplugged"]) 1
        .transportError
    ∧ (run readyState [.issue "G1 X10" 50 true, .portError "unplugged"]).activeTimers
        = [⟨0, "G1 X10", 50, 1⟩]
    ∧ (run readyState [.issue "G1 X10" 50 true, .portError "unplugged"]).currentCommand
        = some "G1 X10" := by
  decide

/-- C6 amended: a transport-level error event immediately sets the
connection state to disconnected, so a subsequent issue fails with
`NotConnected`; but the pending command is *not* resolved with a
`TransportError` failure — its slot and timer are untouched, and it is
left to be resolved by its own timeout. -/
theorem C6_transport_error_behavior (cmd msg c2 : String) (t t2 : Nat)
    (h : isImmediate cmd = false) :
    (run readyState [.issue cmd t true, .portError msg]).isConnected = false
    ∧ settledCount (run readyState [.issue cmd t true, .portError msg]) 1 = 0
    ∧ ¬ settledWith (run readyState [.issue cmd t true, .portError msg]) 1 .transportError
    ∧ (run readyState [.issue cmd t true, .portError msg]).currentCommand = some cmd
    ∧ (run readyState [.issue cmd t true, .portError msg]).activeTimers = [⟨0, cmd, t, 1⟩]
    ∧ settledWith (run readyState [.issue cmd t true, .portError msg, .issue c2 t2 true])
        2 .notConnected
    ∧ settledWith (run readyState [.issue cmd t true, .portError msg, .fire 0])
        1 (.timeout cmd t) := by
  have e1 : run readyState [.issue cmd t true, .portError msg] =
      step (step readyState (.issue cmd t true)) (.portError msg) := rfl
  have e2 : run readyState [.issue cmd t true, .portError msg, .issue c2 t2 true] =
      step (step (step readyState (.issue cmd t true)) (.portError msg))
        (.issue c2 t2 true) := rfl
  have e3 : run readyState [.issue cmd t true, .portError msg, .fire 0] =
      step (step (step readyState (.issue cmd t true)) (.portError msg)) (.fire 0) := rfl
  rw [e1, e2, e3, step_issue_ready cmd t h, afterIssue_portError]
  refine ⟨?_, ?_, ?_, ?_, ?_, ?_, ?_⟩ <;>
    simp [step, sendCommandEv, timerFire, settle, settledCount, settledWith, afterIssue]

/-- C6 witness. -/
theorem C6_transport_error_behavior_witness :
    isImmediate "G1 X5" = false
    ∧ ((run readyState [.issue "G1 X5" 100 true, .portError "unplugged"]).isConnected = false
    ∧ settledCount (run readyState [.issue "G1 X5" 100 true, .portError "unplugged"]) 1 = 0
    ∧ ¬ settledWith (run readyState [.issue "G1 X5" 100 true, .portError "unplugged"]) 1
        .transportError
    ∧ (run readyState [.issue "G1 X5" 100 true, .portError "unplugged"]).currentCommand
        = some "G1 X5"
    ∧ (run readyState [.issue "G1 X5" 100 true, .portError "unplugged"]).activeTimers
        = [⟨0, "G1 X5", 100, 1⟩]
    ∧ settledWith (run readyState
        [.issue "G1 X5" 100 true, .portError "unplugged", .issue "G1 X7" 50 true])
        2 .notConnected
    ∧ settledWith (run readyState [.issue "G1 X5" 100 true, .portError "unplugged", .fire 0])
        1 (.timeout "G1 X5" 100)) :=
  ⟨by decide, C6_transport_error_behavior "G1 X5" "unplugged" "G1 X7" 100 50 (by decide)⟩

/-- C7 counterexample.  The claim says `disconnect()` resolves a
pending command's continuation with a `Disconnected` failure so the
continuation is still invoked exactly once.  Concretely: issue
`G1 X10` then call `disconnect()` (close succeeds).  The timer is
cancelled and the transport closed, but the pending promise is settled
zero times — in particular not with `Disconnected` — and the command
text is not even cleared from the slot. -/
theorem C7_counterexample :
    (run readyState [.issue "G1 X10" 50 true, .disc true]).isConnected = false
    ∧ (run readyState [.issue "G1 X10" 50 true, .disc true]).hasPort = false
    ∧ (run readyState [.issue "G1 X10" 50 true, .disc true]).activeTimers = []
    ∧ (run readyState [.issue "G1 X10" 50 true, .disc true]).timeoutId = none
    ∧ settledCount (run readyState [.issue "G1 X10" 50 true, .disc true]) 1 = 0
    ∧ ¬ settledWith (run readyState [.issue "G1 X10" 50 true, .disc true]) 1 .disconnected
    ∧ (run readyState [.issue "G1 X10" 50 true, .disc true]).currentCommand = some "G1 X10" := by
  decide

/-- C7 amended: `disconnect()` is a no-op success when already
disconnected; otherwise it cancels the pending timer, closes the
transport and transitions to disconnected — but it does not resolve the
pending command's continuation: no `Disconnected` failure is delivered,
the continuation stays registered, and the command text remains in the
slot. -/
theorem C7_disconnect_behavior :
    (∀ s b, s.isConnected = false → disconnectEv s b = (s, true))
    ∧ (∀ cmd t, isImmediate cmd = false →
        disconnectEv (run readyState [.issue cmd t true]) true
            = ({ afterIssue cmd t with
                  timeoutId := none, activeTimers := [],
                  isConnected := false, hasPort := false }, true)
        ∧ settledCount (run readyState [.issue cmd t true, .disc true]) 1 = 0
        ∧ ¬ settledWith (run readyState [.issue cmd t true, .disc true]) 1 .disconnected
        ∧ (run readyState [.issue cmd t true, .disc true]).currentCommand = some cmd
        ∧ (run readyState [.issue cmd t true, .disc true]).moveCompleteCallbacks = [1]) := by
  constructor
  · intro s b h
    simp [disconnectEv, h]
  · intro cmd t h
    have e0 : run readyState [.issue cmd t true] = step readyState (.issue cmd t true) := rfl
    have e1 : run readyState [.issue cmd t true, .disc true] =
        step (step readyState (.issue cmd t true)) (.disc true) := rfl
    rw [e0, e1, step_issue_ready cmd t h, afterIssue_disc]
    refine ⟨?_, ?_, ?_, ?_, ?_⟩ <;>
      simp [step, disconnectEv, clearPendingTimer, settledCount, settledWith, afterIssue]

/-- C7 witness. -/
theorem C7_disconnect_behavior_witness :
    ({ readyState with isConnected := false } : PrinterState).isConnected = false
    ∧ disconnectEv { readyState with isConnected := false } true
        = ({ readyState with isConnected := false }, true)
    ∧ isImmediate "G1 X5" = false
    ∧ (disconnectEv (run readyState [.issue "G1 X5" 100 true]) true
        = ({ afterIssue "G1 X5" 100 with
              timeoutId := none, activeTimers := [],
              isConnected := false, hasPort := false }, true)
    ∧ settledCount (run readyState [.issue "G1 X5" 100 true, .disc true]) 1 = 0
    ∧ ¬ settledWith (run readyState [.issue "G1 X5" 100 true, .disc true]) 1 .disconnected
    ∧ (run readyState [.issue "G1 X5" 100 true, .disc true]).currentCommand = some "G1 X5"
    ∧ (run readyState [.issue "G1 X5" 100 true, .disc true]).moveCompleteCallbacks = [1]) :=
  ⟨by decide,
   C7_disconnect_behavior.1 { readyState with isConnected := false } true (by decide),
   by decide,
   C7_disconnect_behavior.2 "G1 X5" 100 (by decide)⟩

end SerialGCode

/-! ## Claim C10: the timeout staleness guard, and claim C8: the builder -/

namespace SerialGCode

/-- C10: the staleness guard in the timeout callback compares command
*text* (`this.currentCommand === command`), not command identity.  For
two issuances with the same text, the earlier issuance's timer — still
armed, since the second issuance overwrites `this.timeoutId` without
clearing the first timer — fires while the later issuance is pending,
passes the guard, clears the later issuance's slot, and rejects the
earlier call with a `Timeout` carrying the earlier issuance's timeout
duration; the later call stays unresolved with its continuation still
registered. -/
theorem C10_stale_timer_text_guard (cmd : String) (t1 t2 : Nat)
    (h : isImmediate cmd = false) :
    settledWith (run readyState [.issue cmd t1 true, .issue cmd t2 true, .fire 0])
        1 (.timeout cmd t1)
    ∧ (run readyState [.issue cmd t1 true, .issue cmd t2 true, .fire 0]).currentCommand = none
    ∧ settledCount (run readyState [.issue cmd t1 true, .issue cmd t2 true, .fire 0]) 2 = 0
    ∧ (run readyState [.issue cmd t1 true, .issue cmd t2 true, .fire 0]).moveCompleteCallbacks
        = [2] := by
  have e1 : run readyState [.issue cmd t1 true, .issue cmd t2 true, .fire 0] =
      step (step (step readyState (.issue cmd t1 true)) (.issue cmd t2 true)) (.fire 0) := rfl
  rw [e1, step_issue_ready cmd t1 h, afterIssue_issue2 cmd t1 cmd t2 h]
  refine ⟨?_, ?_, ?_, ?_⟩ <;>
    simp [step, timerFire, settle, settledCount, settledWith, afterIssue]

/-- C10 witness. -/
theorem C10_stale_timer_text_guard_witness :
    isImmediate "G1 X5" = false
    ∧ (settledWith (run readyState [.issue "G1 X5" 50 true, .issue "G1 X5" 5000 true, .fire 0])
        1 (.timeout "G1 X5" 50)
    ∧ (run readyState [.issue "G1 X5" 50 true, .issue "G1 X5" 5000 true, .fire 0]).currentCommand
        = none
    ∧ settledCount (run readyState [.issue "G1 X5" 50 true, .issue "G1 X5" 5000 true, .fire 0]) 2
        = 0
    ∧ (run readyState
        [.issue "G1 X5" 50 true, .issue "G1 X5" 5000 true, .fire 0]).moveCompleteCallbacks
        = [2]) :=
  ⟨by decide, C10_stale_timer_text_guard "G1 X5" 50 5000 (by decide)⟩

/-- A character that is not a digit, `.` or `-` does not occur in a
string satisfying `numeralChars`. -/
theorem not_mem_of_numeralChars {v : String} {ch : Char}
    (h1 : ch.isDigit = false) (h2 : ch ≠ '.') (h3 : ch ≠ '-')
    (hv : numeralChars v) : ch ∉ v.data := by
  intro hmem
  rcases hv ch hmem with h | h | h <;> simp_all

/-- A character that is not a digit or `-` does not occur in a string
satisfying `signedDigits`. -/
theorem not_mem_of_signedDigits {v : String} {ch : Char}
    (h1 : ch.isDigit = false) (h2 : ch ≠ '-')
    (hv : signedDigits v) : ch ∉ v.data := by
  intro hmem
  rcases hv ch hmem with h | h <;> simp_all

/-- The built command mentions the character `X` exactly when the x
axis value is present. -/
theorem buildMove_X_iff (gcode : String) (x y z : Option String) (speed : Int)
    (hgc : gcode = "G0" ∨ gcode = "G1")
    (hx : numeralCharsOpt x) (hy : numeralCharsOpt y) (hz : numeralCharsOpt z)
    (hs : signedDigits (toString speed)) :
    'X' ∈ (buildMoveCommand gcode x y z speed).data ↔ x ≠ none := by
  rcases hgc with rfl | rfl <;>
    rcases x with _ | vx <;> rcases y with _ | vy <;> rcases z with _ | vz <;>
    by_cases hsp : 0 < speed <;>
    simp [buildMoveCommand, hsp, String.data_append] <;>
    repeat' apply And.intro
  all_goals
    first
    | exact not_mem_of_numeralChars (by decide) (by decide) (by decide) hy
    | exact not_mem_of_numeralChars (by decide) (by decide) (by decide) hz
    | exact not_mem_of_signedDigits (by decide) (by decide) hs

/-- The built command mentions the character `Y` exactly when the y
axis value is present. -/
theorem buildMove_Y_iff (gcode : String) (x y z : Option String) (speed : Int)
    (hgc : gcode = "G0" ∨ gcode = "G1")
    (hx : numeralCharsOpt x) (hy : numeralCharsOpt y) (hz : numeralCharsOpt z)
    (hs : signedDigits (toString speed)) :
    'Y' ∈ (buildMoveCommand gcode x y z speed).data ↔ y ≠ none := by
  rcases hgc with rfl | rfl <;>
    rcases x with _ | vx <;> rcases y with _ | vy <;> rcases z with _ | vz <;>
    by_cases hsp : 0 < speed <;>
    simp [buildMoveCommand, hsp, String.data_append] <;>
    repeat' apply And.intro
  all_goals
    first
    | exact not_mem_of_numeralChars (by decide) (by decide) (by decide) hx
    | exact not_mem_of_numeralChars (by decide) (by decide) (by decide) hz
    | exact not_mem_of_signedDigits (by decide) (by decide) hs

/-- The built command mentions the character `Z` exactly when the z
axis value is present. -/
theorem buildMove_Z_iff (gcode : String) (x y z : Option String) (speed : Int)
    (hgc : gcode = "G0" ∨ gcode = "G1")
    (hx : numeralCharsOpt x) (hy : numeralCharsOpt y) (hz : numeralCharsOpt z)
    (hs : signedDigits (toString speed)) :
    'Z' ∈ (buildMoveCommand gcode x y z speed).data ↔ z ≠ none := by
  rcases hgc with rfl | rfl <;>
    rcases x with _ | vx <;> rcases y with _ | vy <;> rcases z with _ | vz <;>
    by_cases hsp : 0 < speed <;>
    simp [buildMoveCommand, hsp, String.data_append] <;>
    repeat' apply And.intro
  all_goals
    first
    | exact not_mem_of_numeralChars (by decide) (by decide) (by decide) hx
    | exact not_mem_of_numeralChars (by decide) (by decide) (by decide) hy
    | exact not_mem_of_signedDigits (by decide) (by decide) hs

/-- The built command mentions the character `F` exactly when the
stored speed is positive. -/
theorem buildMove_F_iff (gcode : String) (x y z : Option String) (speed : Int)
    (hgc : gcode = "G0" ∨ gcode = "G1")
    (hx : numeralCharsOpt x) (hy : numeralCharsOpt y) (hz : numeralCharsOpt z) :
    'F' ∈ (buildMoveCommand gcode x y z speed).data ↔ 0 < speed := by
  rcases hgc with rfl | rfl <;>
    rcases x with _ | vx <;> rcases y with _ | vy <;> rcases z with _ | vz <;>
    by_cases hsp : 0 < speed <;>
    simp [buildMoveCommand, hsp, String.data_append] <;>
    repeat' apply And.intro
  all_goals
    first
    | exact not_mem_of_numeralChars (by decide) (by decide) (by decide) hx
    | exact not_mem_of_numeralChars (by decide) (by decide) (by decide) hy
    | exact not_mem_of_numeralChars (by decide) (by decide) (by decide) hz

/-- C8: the built move command contains an axis token exactly for the
axes whose parameter is present, and a trailing speed token exactly
when the stored speed is positive; in particular the intent x = 12.5,
y = -3, z omitted, speed = 1000 builds the single command
`G1 X12.5 Y-3 F1000`, and `absoluteMove` writes exactly that one
command to the transport. -/
theorem C8_command_builder :
    (∀ (gcode : String) (x y z : Option String) (speed : Int),
      (gcode = "G0" ∨ gcode = "G1") →
      numeralCharsOpt x → numeralCharsOpt y → numeralCharsOpt z →
      signedDigits (toString speed) →
      (('X' ∈ (buildMoveCommand gcode x y z speed).data ↔ x ≠ none)
       ∧ ('Y' ∈ (buildMoveCommand gcode x y z speed).data ↔ y ≠ none)
       ∧ ('Z' ∈ (buildMoveCommand gcode x y z speed).data ↔ z ≠ none)
       ∧ ('F' ∈ (buildMoveCommand gcode x y z speed).data ↔ 0 < speed)))
    ∧ buildMoveCommand "G1" (some "12.5") (some "-3") none 1000 = "G1 X12.5 Y-3 F1000"
    ∧ (absoluteMoveEv { readyState with currentSpeed := 1000 }
        (some "12.5") (some "-3") none false true).1.writes = ["G1 X12.5 Y-3 F1000\n"] := by
  refine ⟨fun gcode x y z speed hgc hx hy hz hs => ?_, by decide, by decide⟩
  exact ⟨buildMove_X_iff gcode x y z speed hgc hx hy hz hs,
    buildMove_Y_iff gcode x y z speed hgc hx hy hz hs,
    buildMove_Z_iff gcode x y z speed hgc hx hy hz hs,
    buildMove_F_iff gcode x y z speed hgc hx hy hz⟩

/-- C8 witness. -/
theorem C8_command_builder_witness :
    (("G1" : String) = "G0" ∨ ("G1" : String) = "G1")
    ∧ numeralCharsOpt (some "12.5") ∧ numeralCharsOpt (some "-3")
    ∧ numeralCharsOpt (none : Option String)
    ∧ signedDigits (toString (1000 : Int))
    ∧ (('X' ∈ (buildMoveCommand "G1" (some "12.5") (some "-3") none 1000).data
          ↔ (some "12.5" : Option String) ≠ none)
       ∧ ('Y' ∈ (buildMoveCommand "G1" (some "12.5") (some "-3") none 1000).data
          ↔ (some "-3" : Option String) ≠ none)
       ∧ ('Z' ∈ (buildMoveCommand "G1" (some "12.5") (some "-3") none 1000).data
          ↔ (none : Option String) ≠ none)
       ∧ ('F' ∈ (buildMoveCommand "G1" (some "12.5") (some "-3") none 1000).data
          ↔ (0 : Int) < 1000)) :=
  ⟨Or.inr rfl, by decide, by decide, by decide, by decide,
   C8_command_builder.1 "G1" (some "12.5") (some "-3") none 1000 (Or.inr rfl)
     (by decide) (by decide) (by decide) (by decide)⟩

end SerialGCode

/-! ## Claim C9: the cached position in the UI component -/

namespace PositioningUI

/-- C9 counterexample.  The claim says the cached Position is set to
the commanded target *on successful completion* of a move command
(after the inbound `ok` line).  In the component that owns the cache
(`src/unnamed/part_000`), the move handler mutates the cache the moment
it runs: from the connected state, the single event
`handleAbsoluteMove (10, 0, 0)` — with no command issued to any device
and no completion line (the component has no inbound-line events at
all) — already sets the cache to (10, 0, 0), its only other effect
being a log entry. -/
theorem C9_counterexample :
    (handleAbsoluteMove uiConnectedState (10, 0, 0)).position = (10, 0, 0)
    ∧ uiConnectedState.position ≠ (10, 0, 0)
    ∧ (handleAbsoluteMove uiConnectedState (10, 0, 0)).logs = ["log.absolute_move"] := by
  refine ⟨rfl, ?_, rfl⟩
  decide

/-- C9 amended: the cached Position is mutated only by the home and
move handlers — the home handlers reset it to the origin (0,0,0), the
absolute-move handler sets it to the commanded target and the
delta-move handler adds the delta, in each case immediately when the
handler runs (the component performs no device I/O, so the update is
not gated on any completion line) — and the remaining handlers leave
it unchanged. -/
theorem C9_cache_mutation (s : UiState) (target d : ℚ × ℚ × ℚ) (v : ℚ) :
    (handleSetHome s).position = (0, 0, 0)
    ∧ (handleGoHome s).position = (0, 0, 0)
    ∧ (handleAbsoluteMove s target).position = target
    ∧ (handleDeltaMove s d).position
        = (s.position.1 + d.1, s.position.2.1 + d.2.1, s.position.2.2 + d.2.2)
    ∧ (handleConnect s).position = s.position
    ∧ (handleDisconnect s).position = s.position
    ∧ (handleSetSpeed s).position = s.position
    ∧ (setSpeedInput s v).position = s.position := by
  refine ⟨rfl, rfl, rfl, rfl, ?_, rfl, rfl, rfl⟩
  unfold handleConnect
  split <;> rfl

end PositioningUI
